import Mathlib

/-
Verification development for the TownPass identity-acquisition engine
(src/hooks/useTownPassAuth.ts).  The hook's JavaScript values are shallowly
embedded as the inductive type JSVal; JSON.parse is a platform primitive, so
it is modelled as an arbitrary total decode oracle (Decoder) threaded through
every definition, where `none` stands for a parse exception.
-/

/-- Model of a JavaScript runtime value as it appears in the hook:
null, undefined, booleans, numbers, strings, plain objects (ordered field
lists) and arrays.  Functions never flow through the payload paths. -/
inductive JSVal
  | null
  | undefined
  | bool (b : Bool)
  | num (n : Int)
  | str (s : String)
  | obj (fields : List (String × JSVal))
  | arr (elems : List JSVal)

/-- First field with the given key, as in a JS property read on an object. -/
def lookupField : List (String × JSVal) → String → JSVal
  | [], _ => JSVal.undefined
  | (k, v) :: rest, key => if k == key then v else lookupField rest key

/-- Property access `v.k`: `undefined` on every non-object (the hook only
reads properties behind optional chaining or truthiness guards). -/
def getField : JSVal → String → JSVal
  | JSVal.obj fields, key => lookupField fields key
  | _, _ => JSVal.undefined

/-- JavaScript truthiness. -/
def truthy : JSVal → Bool
  | JSVal.null => false
  | JSVal.undefined => false
  | JSVal.bool b => b
  | JSVal.num n => n != 0
  | JSVal.str s => s != ""
  | JSVal.obj _ => true
  | JSVal.arr _ => true

/-- Nullish test used by the `??` operator. -/
def nullish : JSVal → Bool
  | JSVal.null => true
  | JSVal.undefined => true
  | _ => false

/-- The JS nullish-coalescing operator `a ?? b`. -/
def coalesce (a b : JSVal) : JSVal := if nullish a then b else a

/-- Strict string equality test `v === "s"`. -/
def isStr (v : JSVal) (s : String) : Bool :=
  match v with
  | JSVal.str t => t == s
  | _ => false

/-- The JS `typeof` operator restricted to the embedded values
(`typeof null` is `"object"`). -/
def jsTypeof : JSVal → String
  | JSVal.null => "object"
  | JSVal.undefined => "undefined"
  | JSVal.bool _ => "boolean"
  | JSVal.num _ => "number"
  | JSVal.str _ => "string"
  | JSVal.obj _ => "object"
  | JSVal.arr _ => "object"

/-- A JSON decode oracle standing for the platform's JSON.parse:
`none` models a thrown SyntaxError. -/
def Decoder : Type := String → Option JSVal

/-- tryParse from the source: JSON.parse wrapped in try/catch returning null
on failure; `none` stands for the null result (either a throw or a literal
parsed null, which the callers treat identically via a `!== null` check). -/
def tryParse (jp : Decoder) (s : String) : Option JSVal :=
  match jp s with
  | some JSVal.null => none
  | some v => some v
  | none => none

/-- Decode step at the top of parseIncoming (source lines 46-51): a string
input gets exactly one JSON decode attempt; a failed decode keeps the raw
string for shape matching. -/
def decodeStep (jp : Decoder) (raw : JSVal) : JSVal :=
  match raw with
  | JSVal.str s =>
    match tryParse jp s with
    | some v => v
    | none => raw
  | _ => raw

/-- Shape-matching cascade of parseIncoming (source lines 53-91), applied to
the already-decoded payload.  Each branch transcribes one `if` of the source
in source order; a returned JS null maps to `none`. -/
def matchShapes (jp : Decoder) (payload : JSVal) : Option JSVal :=
  if isStr (getField payload "source") "townpass" &&
     (isStr (getField payload "type") "user" || isStr (getField payload "type") "user_info") then
    let x := coalesce (getField payload "payload") (getField payload "user")
    if nullish x then none else some x
  else if isStr (getField payload "type") "townpass:user" && truthy (getField payload "user") then
    some (getField payload "user")
  else if (isStr (getField payload "type") "TOWNPASS_USER" ||
           isStr (getField payload "type") "TOWNPASS_USER_INFO") && truthy (getField payload "user") then
    some (getField payload "user")
  else if truthy (getField payload "townpass_user") then
    some (getField payload "townpass_user")
  else if truthy (getField payload "user") && jsTypeof (getField payload "user") == "object" &&
          truthy (getField (getField payload "user") "id") then
    some (getField payload "user")
  else if isStr (getField payload "name") "userinfo" &&
          (jsTypeof (getField payload "data") == "string" ||
           jsTypeof (getField payload "data") == "object") then
    match getField payload "data" with
    | JSVal.str s =>
      match tryParse jp s with
      | some v => if nullish v then none else some v
      | none => none
    | d => if nullish d then none else some d
  else if truthy (getField payload "detail") &&
          (truthy (getField (getField payload "detail") "user") ||
           truthy (getField (getField payload "detail") "townpass_user")) then
    let x := coalesce (getField (getField payload "detail") "user")
                      (getField (getField payload "detail") "townpass_user")
    if nullish x then none else some x
  else if jsTypeof payload == "object" && truthy (getField payload "id") then
    some payload
  else
    none

/-- parseIncoming (source lines 43-92): total normalizer mapping an arbitrary
inbound value to a recognized identity record (`some`) or null (`none`).
Falsy input returns null at once; a string input is decoded once and the
result (or, on failure, the string itself) is shape-matched. -/
def parseIncoming (jp : Decoder) (raw : JSVal) : Option JSVal :=
  if !truthy raw then none
  else matchShapes jp (decodeStep jp raw)

/-- Identifier projection of a normalizer result, used to compare outcomes
without deciding equality of whole JS values. -/
def idOf (r : Option JSVal) : Option String :=
  match r with
  | some u =>
    match getField u "id" with
    | JSVal.str s => some s
    | _ => none
  | none => none

/-- A matcher/extractor pair: one envelope shape of the §4.1 priority list. -/
structure Shape where
  applies : JSVal → Bool
  extract : JSVal → Option JSVal

/-- Runs a priority list of shapes: the earliest matching shape determines the
result, later shapes are never consulted. -/
def runShapes : List Shape → JSVal → Option JSVal
  | [], _ => none
  | s :: rest, v => if s.applies v then s.extract v else runShapes rest v

/-- Shape: tagged envelope with source discriminator
`{source: "townpass", type: "user" | "user_info"}`. -/
def shapeTaggedSource : Shape where
  applies v := isStr (getField v "source") "townpass" &&
    (isStr (getField v "type") "user" || isStr (getField v "type") "user_info")
  extract v :=
    let x := coalesce (getField v "payload") (getField v "user")
    if nullish x then none else some x

/-- Shape: tagged envelope `{type: "townpass:user", user}`. -/
def shapeTaggedColon : Shape where
  applies v := isStr (getField v "type") "townpass:user" && truthy (getField v "user")
  extract v := some (getField v "user")

/-- Shape: tagged envelope `{type: "TOWNPASS_USER" | "TOWNPASS_USER_INFO", user}`. -/
def shapeTaggedUpper : Shape where
  applies v := (isStr (getField v "type") "TOWNPASS_USER" ||
    isStr (getField v "type") "TOWNPASS_USER_INFO") && truthy (getField v "user")
  extract v := some (getField v "user")

/-- Shape: nested `townpass_user` key. -/
def shapeNestedTownpass : Shape where
  applies v := truthy (getField v "townpass_user")
  extract v := some (getField v "townpass_user")

/-- Shape: nested `user` key holding an object with an identifier. -/
def shapeNestedUser : Shape where
  applies v := truthy (getField v "user") && jsTypeof (getField v "user") == "object" &&
    truthy (getField (getField v "user") "id")
  extract v := some (getField v "user")

/-- Shape: `{name: "userinfo", data}` command reply, where data may itself be a
JSON-encoded string. -/
def shapeNameData (jp : Decoder) : Shape where
  applies v := isStr (getField v "name") "userinfo" &&
    (jsTypeof (getField v "data") == "string" || jsTypeof (getField v "data") == "object")
  extract v :=
    match getField v "data" with
    | JSVal.str s =>
      match tryParse jp s with
      | some w => if nullish w then none else some w
      | none => none
    | d => if nullish d then none else some d

/-- Shape: event-wrapper `detail` payload. -/
def shapeDetail : Shape where
  applies v := truthy (getField v "detail") &&
    (truthy (getField (getField v "detail") "user") ||
     truthy (getField (getField v "detail") "townpass_user"))
  extract v :=
    let x := coalesce (getField (getField v "detail") "user")
                      (getField (getField v "detail") "townpass_user")
    if nullish x then none else some x

/-- Shape: bare object already carrying an identifier field. -/
def shapeBareId : Shape where
  applies v := jsTypeof v == "object" && truthy (getField v "id")
  extract v := some v

/-- Priority order the code actually implements: tagged envelopes, nested
user keys, the name/data command reply, the event-wrapper detail payload, and
only then bare identifier objects. -/
def shapesCodeOrder (jp : Decoder) : List Shape :=
  [shapeTaggedSource, shapeTaggedColon, shapeTaggedUpper, shapeNestedTownpass,
   shapeNestedUser, shapeNameData jp, shapeDetail, shapeBareId]

/-- Priority order asserted by the claim: bare identifier objects before
event-wrapper detail payloads. -/
def shapesClaimOrder (jp : Decoder) : List Shape :=
  [shapeTaggedSource, shapeTaggedColon, shapeTaggedUpper, shapeNestedTownpass,
   shapeNestedUser, shapeNameData jp, shapeBareId, shapeDetail]

/-- Normalizer as the claim states it (spec-side definition, for refutation):
decode once, then try the claim's shape order. -/
def claimNormalize (jp : Decoder) (raw : JSVal) : Option JSVal :=
  if !truthy raw then none
  else runShapes (shapesClaimOrder jp) (decodeStep jp raw)

/-- Normalizer in the amended order (spec-side definition mirroring the
amended claim): decode once, then try the code's shape order. -/
def amendedNormalize (jp : Decoder) (raw : JSVal) : Option JSVal :=
  if !truthy raw then none
  else runShapes (shapesCodeOrder jp) (decodeStep jp raw)

/-- Kind of listener closure created by one request. -/
inductive LKind
  | generic
  | custom
  | flutter
  | channel
deriving DecidableEq, Repr

/-- A listener closure is identified by the request that created it together
with its kind (distinct requests create distinct closures). -/
abbrev Listener : Type := Nat × LKind

/-- Contents of the global window.__onTownPassUser callback slot. -/
inductive SlotVal
  | absent
  | hostFn
  | engineFn (reqId : Nat)
deriving DecidableEq, Repr

/-- Instrumentation events emitted by requestTownPassUser, in program order:
state resets, listener attachments, timer arming, and outbound probes. -/
inductive Event
  | setLoading
  | setErrorNull
  | setUserNull
  | attachMessage
  | attachCustom
  | installSlot
  | attachFlutter
  | attachChannel
  | armTimer
  | probeFlutter (msg : String)
  | probeChannel (msg : String)
  | probeWebkit
  | probeRN (msg : String)
  | probeTownPass (msg : String)
  | probeWindow (msg : String)
  | callGetUser
deriving DecidableEq, Repr

/-- Host-environment configuration discovered by probing window globals at
request time: which bridge objects exist and which methods they expose.
townPassGetUser holds the value a present TownPass.getUser() would return. -/
structure HostConfig where
  flutterPresent : Bool
  flutterHasAdd : Bool
  flutterHasPost : Bool
  channelPresent : Bool
  channelHasAdd : Bool
  channelHasPost : Bool
  webkitPresent : Bool
  rnPresent : Bool
  townPassPresent : Bool
  townPassHasPost : Bool
  townPassGetUser : Option JSVal

/-- Combined state of the hook (React state and refs) and of the window
globals the hook mutates: attached listener lists per event target and the
__onTownPassUser slot. -/
structure World where
  user : Option JSVal
  isLoading : Bool
  error : Option String
  isAuthenticated : Bool
  timerReq : Option Nat
  listenerRef : Option Listener
  channelListenerRef : Option Listener
  cleanedRef : Bool
  msgListeners : List Listener
  customListeners : List Listener
  flutterListeners : List Listener
  flutterOnMessage : Option Listener
  channelListeners : List Listener
  channelOnMessage : Option Listener
  slot : SlotVal
  nextReq : Nat

/-- Initial hook state (source lines 29-37): no user, not loading, no error,
not authenticated, no timers or listeners, callback slot untouched. -/
def initialWorld : World where
  user := none
  isLoading := false
  error := none
  isAuthenticated := false
  timerReq := none
  listenerRef := none
  channelListenerRef := none
  cleanedRef := false
  msgListeners := []
  customListeners := []
  flutterListeners := []
  flutterOnMessage := none
  channelListeners := []
  channelOnMessage := none
  slot := SlotVal.absent
  nextReq := 0

/-- cleanup (source lines 102-143), field by field: sets cleanedRef, clears
the timer, removes the stored window message listener, attempts to remove the
listener stored in channelListenerRef from townpass_message_channel (the ref
actually holds the flutterObject handler, so this never removes the channel
handler, which was never stored), and deletes window.__onTownPassUser whenever
it currently holds any function (the engine's or the host's alike).  The
townpass:user custom listener and the flutterObject listener are not touched. -/
def cleanup (cfg : HostConfig) (w : World) : World :=
  { w with
    cleanedRef := true,
    timerReq := none,
    msgListeners :=
      match w.listenerRef with
      | some l => w.msgListeners.erase l
      | none => w.msgListeners,
    listenerRef := none,
    channelListeners :=
      match w.channelListenerRef with
      | some l =>
        if cfg.channelPresent && cfg.channelHasAdd then w.channelListeners.erase l
        else w.channelListeners
      | none => w.channelListeners,
    channelOnMessage :=
      match w.channelListenerRef with
      | some l =>
        if cfg.channelPresent && !cfg.channelHasAdd && w.channelOnMessage == some l then none
        else w.channelOnMessage
      | none => w.channelOnMessage,
    channelListenerRef := none,
    slot := SlotVal.absent }

/-- handleIncomingRaw (source lines 145-155): normalize the raw value; on a
truthy parse result set the user, stop loading, clear the error and report
success; otherwise leave the state untouched. -/
def handleIncomingRaw (jp : Decoder) (w : World) (raw : JSVal) : World × Bool :=
  match parseIncoming jp raw with
  | some parsed =>
    if truthy parsed then
      ({ w with user := some parsed, isLoading := false, error := none }, true)
    else (w, false)
  | none => (w, false)

/-- Shared tail of every inbound handler: handleIncomingRaw, then cleanup on
success. -/
def handleThenCleanup (jp : Decoder) (cfg : HostConfig) (w : World) (raw : JSVal) : World :=
  let pr := handleIncomingRaw jp w raw
  if pr.2 then cleanup cfg pr.1 else pr.1

/-- Probe message JSON.stringify-ed to flutterObject (source line 276). -/
def probeFlutterMsg : String := "\x7b\"name\":\"userinfo\",\"data\":null\x7d"

/-- Probe message to townpass_message_channel (source line 290). -/
def probeChannelMsg : String := "\x7b\"name\":\"userid\",\"data\":null\x7d"

/-- Probe message to ReactNativeWebView (source line 324). -/
def probeRNMsg : String := "\x7b\"type\":\"getUser\"\x7d"

/-- Probe message to the Android-style TownPass bridge (source line 334). -/
def probeTPMsg : String := "\x7b\"type\":\"getUser\"\x7d"

/-- Probe message broadcast via window.postMessage (source line 343). -/
def probeWindowMsg : String := "\x7b\"source\":\"web\",\"type\":\"getUser\"\x7d"

/-- Instrumented event order of the setup part of requestTownPassUser (source
lines 159-270): state resets, then the five listener attachments (bridge ones
conditional on their host object), then timer arming.  Written cons-first so
the reset prefix is syntactically exposed. -/
def setupTrace (cfg : HostConfig) : List Event :=
  Event.setLoading :: Event.setErrorNull :: Event.setUserNull ::
  Event.attachMessage :: Event.attachCustom :: Event.installSlot ::
  ((if cfg.flutterPresent then [Event.attachFlutter] else []) ++
   (if cfg.channelPresent then [Event.attachChannel] else []) ++
   [Event.armTimer])

/-- Instrumented event order of the probe part of requestTownPassUser (source
lines 272-360): bridge probes in source order, the unconditional window
broadcast, and the synchronous TownPass.getUser call last. -/
def probeTrace (cfg : HostConfig) : List Event :=
  (if cfg.flutterPresent && cfg.flutterHasPost then [Event.probeFlutter probeFlutterMsg] else []) ++
  (if cfg.channelPresent && cfg.channelHasPost then [Event.probeChannel probeChannelMsg] else []) ++
  (if cfg.webkitPresent then [Event.probeWebkit] else []) ++
  (if cfg.rnPresent then [Event.probeRN probeRNMsg] else []) ++
  (if cfg.townPassPresent && cfg.townPassHasPost then [Event.probeTownPass probeTPMsg] else []) ++
  [Event.probeWindow probeWindowMsg] ++
  (if cfg.townPassPresent && cfg.townPassGetUser.isSome then [Event.callGetUser] else [])

/-- Setup part of requestTownPassUser (source lines 157-270), in source order:
reset cleanedRef and the caller-visible state, run cleanup, attach the window
message listener (stored in listenerRef), the townpass:user custom listener
(stored nowhere), install window.__onTownPassUser unconditionally, attach the
flutterObject handler when present (stored in channelListenerRef; via
addEventListener or the onmessage slot), attach the townpass_message_channel
handler when present (stored nowhere), then arm the timeout. -/
def setupPhase (cfg : HostConfig) (w : World) : World × List Event :=
  let r := w.nextReq
  let w1 := cleanup cfg
    { w with nextReq := r + 1, cleanedRef := false,
             isLoading := true, error := none, user := none }
  ({ w1 with
      listenerRef := some (r, LKind.generic),
      msgListeners := w1.msgListeners ++ [(r, LKind.generic)],
      customListeners := w1.customListeners ++ [(r, LKind.custom)],
      slot := SlotVal.engineFn r,
      channelListenerRef :=
        if cfg.flutterPresent then some (r, LKind.flutter) else w1.channelListenerRef,
      flutterListeners :=
        if cfg.flutterPresent && cfg.flutterHasAdd then w1.flutterListeners ++ [(r, LKind.flutter)]
        else w1.flutterListeners,
      flutterOnMessage :=
        if cfg.flutterPresent && !cfg.flutterHasAdd then some (r, LKind.flutter)
        else w1.flutterOnMessage,
      channelListeners :=
        if cfg.channelPresent && cfg.channelHasAdd then w1.channelListeners ++ [(r, LKind.channel)]
        else w1.channelListeners,
      channelOnMessage :=
        if cfg.channelPresent && !cfg.channelHasAdd then some (r, LKind.channel)
        else w1.channelOnMessage,
      timerReq := some r },
   setupTrace cfg)

/-- Probe part of requestTownPassUser (source lines 272-360).  The postMessage
probes are outbound only and do not change engine state; the one synchronous
state change is the TownPass.getUser call at the very end, whose truthy result
is fed to handleIncomingRaw and, on success, to cleanup. -/
def probePhase (jp : Decoder) (cfg : HostConfig) (w : World) : World × List Event :=
  let w2 :=
    if cfg.townPassPresent then
      match cfg.townPassGetUser with
      | some res => if truthy res then handleThenCleanup jp cfg w res else w
      | none => w
    else w
  (w2, probeTrace cfg)

/-- requestTownPassUser (source lines 157-363): setup part then probe part,
with the instrumentation trace of both concatenated in program order. -/
def requestTownPassUser (jp : Decoder) (cfg : HostConfig) (w : World) : World × List Event :=
  let s := setupPhase cfg w
  let p := probePhase jp cfg s.1
  (p.1, s.2 ++ p.2)

/-- Firing of the armed timeout (source lines 265-270): only an armed timer
fires; it stops loading, sets the timeout error and runs cleanup. -/
def timeoutFire (cfg : HostConfig) (w : World) : World :=
  match w.timerReq with
  | some _ => cleanup cfg { w with isLoading := false,
                                   error := some "TownPass authentication timeout" }
  | none => w

/-- reset (source lines 393-399): cleanup, then clear every caller-visible
field. -/
def resetState (cfg : HostConfig) (w : World) : World :=
  { cleanup cfg w with user := none, isAuthenticated := false,
                       isLoading := false, error := none }

/-- Delivery of a window message event (source lines 168-175): every attached
generic listener runs handleIncomingRaw on ev.data and cleans up on success. -/
def deliverWindowMessage (jp : Decoder) (cfg : HostConfig) (w : World) (data : JSVal) : World :=
  w.msgListeners.foldl (fun acc _ => handleThenCleanup jp cfg acc data) w

/-- Delivery of a townpass:user CustomEvent (source lines 180-185): every
attached custom listener runs handleIncomingRaw on ev.detail and cleans up on
success. -/
def deliverCustomEvent (jp : Decoder) (cfg : HostConfig) (w : World) (detail : JSVal) : World :=
  w.customListeners.foldl (fun acc _ => handleThenCleanup jp cfg acc detail) w

/-- flutterObject message handler (source lines 199-227): take ev.data (or the
event itself), JSON-decode strings (keeping the string on a parse throw), then
dispatch on the name field: a truthy-data userinfo reply feeds data.data to
handleIncomingRaw; a truthy-data userid reply synthesizes an object holding
only that id. -/
def runFlutterHandler (jp : Decoder) (cfg : HostConfig) (w : World) (ev : JSVal) : World :=
  let data0 := coalesce (getField ev "data") ev
  let data :=
    match data0 with
    | JSVal.str s =>
      match jp s with
      | some v => v
      | none => data0
    | _ => data0
  if isStr (getField data "name") "userinfo" && truthy (getField data "data") then
    handleThenCleanup jp cfg w (getField data "data")
  else if isStr (getField data "name") "userid" && truthy (getField data "data") then
    handleThenCleanup jp cfg w (JSVal.obj [("id", getField data "data")])
  else w

/-- Delivery of a flutterObject message to every attached flutter listener
(addEventListener list, then the onmessage slot if the engine set it). -/
def deliverFlutterMessage (jp : Decoder) (cfg : HostConfig) (w : World) (ev : JSVal) : World :=
  let w1 := w.flutterListeners.foldl (fun acc _ => runFlutterHandler jp cfg acc ev) w
  match w.flutterOnMessage with
  | some _ => runFlutterHandler jp cfg w1 ev
  | none => w1

/-- townpass_message_channel handler (source lines 243-252): take ev.data (or
the event itself), tryParse strings keeping the string on failure, then feed
the value straight to handleIncomingRaw; there is no name-based dispatch here. -/
def runChannelHandler (jp : Decoder) (cfg : HostConfig) (w : World) (ev : JSVal) : World :=
  let data := coalesce (getField ev "data") ev
  let parsed :=
    match data with
    | JSVal.str s =>
      match tryParse jp s with
      | some v => v
      | none => data
    | _ => data
  handleThenCleanup jp cfg w parsed

/-- Delivery of a townpass_message_channel message to every attached channel
listener. -/
def deliverChannelMessage (jp : Decoder) (cfg : HostConfig) (w : World) (ev : JSVal) : World :=
  let w1 := w.channelListeners.foldl (fun acc _ => runChannelHandler jp cfg acc ev) w
  match w.channelOnMessage with
  | some _ => runChannelHandler jp cfg w1 ev
  | none => w1

/-- Host invocation of window.__onTownPassUser (source lines 189-193): runs the
engine handler only when the engine's function occupies the slot. -/
def invokeSlot (jp : Decoder) (cfg : HostConfig) (w : World) (payload : JSVal) : World :=
  match w.slot with
  | SlotVal.engineFn _ => handleThenCleanup jp cfg w payload
  | _ => w

/-- Identifier of the currently resolved user, as a decidable projection. -/
def userIdOf (w : World) : Option String :=
  match w.user with
  | some u =>
    match getField u "id" with
    | JSVal.str s => some s
    | _ => none
  | none => none

/-- Default backend endpoint of the session exchange (source line 27). -/
def defaultAuthEndpoint : String := "/api/auth/townpass"

/-- Error message raised when a 2xx response body fails JSON decoding; the
exact platform text is irrelevant to the control flow, only that e.message is
surfaced. -/
def jsonDecodeErrorMsg : String := "Unexpected token in JSON"

/-- Outcome of the single fetch performed by loginWithTownPass: HTTP status,
body text (as read by res.text) and the result of res.json (`none` when the
body is not valid JSON, making res.json reject). -/
structure FetchResponse where
  status : Nat
  bodyText : String
  jsonBody : Option JSVal

/-- res.ok: status in the 2xx range. -/
def resOk (r : FetchResponse) : Bool := 200 ≤ r.status && r.status < 300

/-- The one outbound request loginWithTownPass constructs (source lines
369-374): POST to the configured endpoint, JSON content type, credentials
included, body an object with the identity under the townpass_user key. -/
structure FetchRequest where
  url : String
  method : String
  contentType : String
  credentials : String
  body : JSVal

/-- loginWithTownPass (source lines 365-391), modelled against the one
response the backend returns (the call performs exactly one fetch and no
retry): start loading; on a non-2xx status read the body text and throw an
error carrying status and body, which the catch block surfaces with
isAuthenticated false; on a 2xx status res.json decides the outcome — a
decodable body authenticates, an undecodable one rejects and also lands in
the catch block. -/
def loginWithTownPass (authEndpoint : String) (u : JSVal) (resp : FetchResponse)
    (w : World) : World × FetchRequest × Except String JSVal :=
  let w0 := { w with isLoading := true, error := none }
  let req : FetchRequest :=
    { url := authEndpoint, method := "POST", contentType := "application/json",
      credentials := "include", body := JSVal.obj [("townpass_user", u)] }
  if !resOk resp then
    let msg := "Backend auth failed " ++ toString resp.status ++ " " ++ resp.bodyText
    ({ w0 with isAuthenticated := false, isLoading := false, error := some msg },
     req, Except.error msg)
  else
    match resp.jsonBody with
    | some data =>
      ({ w0 with isAuthenticated := true, isLoading := false }, req, Except.ok data)
    | none =>
      ({ w0 with isAuthenticated := false, isLoading := false,
                 error := some jsonDecodeErrorMsg },
       req, Except.error jsonDecodeErrorMsg)

/-- Decode oracle that fails on every string (host with no recognizable JSON
anywhere); enough for fixtures whose strings are never decoded. -/
def jp0 : Decoder := fun _ => none

/-- Host exposing no bridge objects at all (plain desktop browser). -/
def cfgNone : HostConfig where
  flutterPresent := false
  flutterHasAdd := false
  flutterHasPost := false
  channelPresent := false
  channelHasAdd := false
  channelHasPost := false
  webkitPresent := false
  rnPresent := false
  townPassPresent := false
  townPassHasPost := false
  townPassGetUser := none

/-- Host exposing every bridge object, with a truthy synchronous getUser. -/
def cfgAll : HostConfig where
  flutterPresent := true
  flutterHasAdd := true
  flutterHasPost := true
  channelPresent := true
  channelHasAdd := true
  channelHasPost := true
  webkitPresent := true
  rnPresent := true
  townPassPresent := true
  townPassHasPost := true
  townPassGetUser := some (JSVal.obj [("id", JSVal.str "sync-user")])

/-- Host exposing only townpass_message_channel with the full event API. -/
def cfgChan : HostConfig where
  flutterPresent := false
  flutterHasAdd := false
  flutterHasPost := false
  channelPresent := true
  channelHasAdd := true
  channelHasPost := true
  webkitPresent := false
  rnPresent := false
  townPassPresent := false
  townPassHasPost := false
  townPassGetUser := none

/-- Host exposing only flutterObject with the full event API. -/
def cfgFlut : HostConfig where
  flutterPresent := true
  flutterHasAdd := true
  flutterHasPost := true
  channelPresent := false
  channelHasAdd := false
  channelHasPost := false
  webkitPresent := false
  rnPresent := false
  townPassPresent := false
  townPassHasPost := false
  townPassGetUser := none

/-- Events that are part of getting ready to listen: caller-visible state
resets, listener attachments, callback installation and timer arming. -/
def isSetupEvent : Event → Bool
  | Event.setLoading => true
  | Event.setErrorNull => true
  | Event.setUserNull => true
  | Event.attachMessage => true
  | Event.attachCustom => true
  | Event.installSlot => true
  | Event.attachFlutter => true
  | Event.attachChannel => true
  | Event.armTimer => true
  | _ => false

/-- Events observable by the host: outbound probes and the synchronous
accessor call. -/
def isProbeEvent : Event → Bool
  | Event.probeFlutter _ => true
  | Event.probeChannel _ => true
  | Event.probeWebkit => true
  | Event.probeRN _ => true
  | Event.probeTownPass _ => true
  | Event.probeWindow _ => true
  | Event.callGetUser => true
  | _ => false

/-- Identity record with id "a". -/
def userA : JSVal := JSVal.obj [("id", JSVal.str "a")]

/-- Identity record with id "b". -/
def userB : JSVal := JSVal.obj [("id", JSVal.str "b")]

/-- Input that structurally matches both the event-wrapper detail shape and
the bare-identifier shape, with distinct identifiers to tell the branches
apart. -/
def c4Input : JSVal :=
  JSVal.obj [("detail", JSVal.obj [("user", userA)]), ("id", JSVal.str "b")]

/-- Bridge event carrying a userid command reply with id "u2". -/
def evUserid : JSVal :=
  JSVal.obj [("data", JSVal.obj [("name", JSVal.str "userid"), ("data", JSVal.str "u2")])]

/-- Backend response: HTTP 401 with a plain body. -/
def resp401 : FetchResponse where
  status := 401
  bodyText := "unauthorized"
  jsonBody := none

/-- Backend response: HTTP 200 whose body is not valid JSON, so res.json()
rejects. -/
def resp200Bad : FetchResponse where
  status := 200
  bodyText := "not json"
  jsonBody := none

/-- Decode oracle for witnesses: decodes "D" to an identity object, "S" to a
bare string, fails elsewhere. -/
def jp1 : Decoder := fun s =>
  if s == "D" then some (JSVal.obj [("id", JSVal.str "u1"), ("email", JSVal.str "e")])
  else if s == "S" then some (JSVal.str "inner")
  else none

/-- No event of the setup part of the trace is host-observable as a probe. -/
theorem setupTrace_all_nonprobe (cfg : HostConfig) :
    (setupTrace cfg).all (fun e => !isProbeEvent e) = true := by
  cases hf : cfg.flutterPresent <;> cases hc : cfg.channelPresent <;>
    simp only [setupTrace, hf, hc] <;> decide

/-- Every event of the probe part of the trace is a probe, never an
attachment or timer arming. -/
theorem probeTrace_all_probe (cfg : HostConfig) :
    (probeTrace cfg).all (fun e => isProbeEvent e && !isSetupEvent e) = true := by
  cases h1 : cfg.flutterPresent && cfg.flutterHasPost <;>
  cases h2 : cfg.channelPresent && cfg.channelHasPost <;>
  cases h3 : cfg.webkitPresent <;>
  cases h4 : cfg.rnPresent <;>
  cases h5 : cfg.townPassPresent && cfg.townPassHasPost <;>
  cases h6 : cfg.townPassPresent && cfg.townPassGetUser.isSome <;>
    simp only [probeTrace, h1, h2, h3, h4, h5, h6] <;> decide

/-- Membership form of setupTrace_all_nonprobe. -/
theorem setupTrace_no_probe (cfg : HostConfig) :
    ∀ e ∈ setupTrace cfg, isProbeEvent e = false := by
  intro e he
  have h := List.all_eq_true.mp (setupTrace_all_nonprobe cfg) e he
  simpa using h

/-- Membership form of probeTrace_all_probe, setup half. -/
theorem probeTrace_no_setup (cfg : HostConfig) :
    ∀ e ∈ probeTrace cfg, isSetupEvent e = false := by
  intro e he
  have h := List.all_eq_true.mp (probeTrace_all_probe cfg) e he
  simp only [Bool.and_eq_true, Bool.not_eq_true'] at h
  exact h.2

/-- Membership form of probeTrace_all_probe, probe half. -/
theorem probeTrace_is_probe (cfg : HostConfig) :
    ∀ e ∈ probeTrace cfg, isProbeEvent e = true := by
  intro e he
  have h := List.all_eq_true.mp (probeTrace_all_probe cfg) e he
  simp only [Bool.and_eq_true, Bool.not_eq_true'] at h
  exact h.1

/-- The request trace splits into the setup part followed by the probe part. -/
theorem requestTrace_split (jp : Decoder) (cfg : HostConfig) (w : World) :
    (requestTownPassUser jp cfg w).2 = setupTrace cfg ++ probeTrace cfg := rfl

/-- Key attachment events always land in the setup part. -/
theorem setupTrace_mem_core (cfg : HostConfig) :
    Event.attachMessage ∈ setupTrace cfg ∧ Event.attachCustom ∈ setupTrace cfg ∧
    Event.installSlot ∈ setupTrace cfg ∧ Event.armTimer ∈ setupTrace cfg := by
  cases hf : cfg.flutterPresent <;> cases hc : cfg.channelPresent <;>
    simp only [setupTrace, hf, hc] <;> decide

/-- The bridge attachments land in the setup part whenever their host object
is present. -/
theorem setupTrace_mem_bridge (cfg : HostConfig) :
    (cfg.flutterPresent = true → Event.attachFlutter ∈ setupTrace cfg) ∧
    (cfg.channelPresent = true → Event.attachChannel ∈ setupTrace cfg) := by
  cases hf : cfg.flutterPresent <;> cases hc : cfg.channelPresent <;>
    simp only [setupTrace, hf, hc] <;> decide

/-- The generic broadcast probe always lands in the probe part. -/
theorem probeTrace_mem_window (cfg : HostConfig) :
    Event.probeWindow probeWindowMsg ∈ probeTrace cfg := by
  cases h1 : cfg.flutterPresent && cfg.flutterHasPost <;>
  cases h2 : cfg.channelPresent && cfg.channelHasPost <;>
  cases h3 : cfg.webkitPresent <;>
  cases h4 : cfg.rnPresent <;>
  cases h5 : cfg.townPassPresent && cfg.townPassHasPost <;>
  cases h6 : cfg.townPassPresent && cfg.townPassGetUser.isSome <;>
    simp only [probeTrace, h1, h2, h3, h4, h5, h6] <;> decide

/-- C1: For every invocation of requestTownPassUser, all transport listeners
(the window message listener, the townpass:user custom-event listener, the
__onTownPassUser callback slot, and the bridge-channel listeners when their
host objects are present) are attached and the timeout timer is armed
strictly before any probe is sent on any channel: the trace splits at the
setup length into a prefix with no probe events — which contains every
attachment and the timer arming — and a suffix with no setup events, which
contains the probes. -/
theorem c1_listeners_and_timer_before_probes (jp : Decoder) (cfg : HostConfig) (w : World) :
    (∀ e ∈ ((requestTownPassUser jp cfg w).2).take (setupTrace cfg).length,
       isProbeEvent e = false) ∧
    (∀ e ∈ ((requestTownPassUser jp cfg w).2).drop (setupTrace cfg).length,
       isSetupEvent e = false) ∧
    Event.attachMessage ∈ ((requestTownPassUser jp cfg w).2).take (setupTrace cfg).length ∧
    Event.attachCustom ∈ ((requestTownPassUser jp cfg w).2).take (setupTrace cfg).length ∧
    Event.installSlot ∈ ((requestTownPassUser jp cfg w).2).take (setupTrace cfg).length ∧
    Event.armTimer ∈ ((requestTownPassUser jp cfg w).2).take (setupTrace cfg).length ∧
    (cfg.flutterPresent = true →
      Event.attachFlutter ∈ ((requestTownPassUser jp cfg w).2).take (setupTrace cfg).length) ∧
    (cfg.channelPresent = true →
      Event.attachChannel ∈ ((requestTownPassUser jp cfg w).2).take (setupTrace cfg).length) ∧
    Event.probeWindow probeWindowMsg ∈
      ((requestTownPassUser jp cfg w).2).drop (setupTrace cfg).length := by
  rw [requestTrace_split, List.take_left, List.drop_left]
  obtain ⟨m1, m2, m3, m4⟩ := setupTrace_mem_core cfg
  obtain ⟨b1, b2⟩ := setupTrace_mem_bridge cfg
  exact ⟨setupTrace_no_probe cfg, probeTrace_no_setup cfg, m1, m2, m3, m4, b1, b2,
         probeTrace_mem_window cfg⟩

/-- Witness for C1 at a host exposing every bridge: the timer-arming event
sits in the probe-free prefix, the flutter attachment is present there, and
the sync accessor call sits in the setup-free suffix. -/
theorem c1_witness :
    isProbeEvent Event.armTimer = false ∧ isSetupEvent Event.callGetUser = false := by
  have h := c1_listeners_and_timer_before_probes jp0 cfgAll initialWorld
  refine ⟨h.1 Event.armTimer (by decide), h.2.1 Event.callGetUser ?_⟩
  have hm : Event.callGetUser ∈
      ((requestTownPassUser jp0 cfgAll initialWorld).2).drop (setupTrace cfgAll).length := by
    decide
  exact hm

/-- C10: Every call to requestTownPassUser resets the caller-visible state
before attaching any listener: the first three trace events are the loading,
error and user resets (preceding every attachment in the trace), and when the
host has no synchronous accessor — so nothing can resolve during the call
itself — the state after the call shows the erased user and error and the
raised loading flag, whatever identity an earlier request had resolved. -/
theorem c10_state_reset_first (jp : Decoder) (cfg : HostConfig) (w : World)
    (h : cfg.townPassGetUser = none) :
    ((requestTownPassUser jp cfg w).2).take 3 =
      [Event.setLoading, Event.setErrorNull, Event.setUserNull] ∧
    ((requestTownPassUser jp cfg w).1).user = none ∧
    ((requestTownPassUser jp cfg w).1).error = none ∧
    ((requestTownPassUser jp cfg w).1).isLoading = true := by
  have hreq : (requestTownPassUser jp cfg w).1 = (setupPhase cfg w).1 := by
    simp [requestTownPassUser, probePhase, h]
  refine ⟨rfl, ?_, ?_, ?_⟩ <;> rw [hreq] <;> rfl

/-- Witness for C10: starting a request over a world that already holds a
resolved identity erases it. -/
theorem c10_witness :
    ((requestTownPassUser jp0 cfgNone { initialWorld with user := some userA }).1).user = none :=
  (c10_state_reset_first jp0 cfgNone { initialWorld with user := some userA } rfl).2.1

/-- C2 (evaluation at the failing input): after a request with no bridge
objects resolves via a window message carrying id "a", cleanup has cleared
the timer and the window message listener, but the townpass:user custom
listener is still attached; a custom event carrying id "b" delivered after
resolution overwrites the caller-visible user. -/
theorem c2_listener_leak_eval :
    userIdOf (deliverWindowMessage jp0 cfgNone
      (requestTownPassUser jp0 cfgNone initialWorld).1 userA) = some "a" ∧
    (deliverWindowMessage jp0 cfgNone
      (requestTownPassUser jp0 cfgNone initialWorld).1 userA).timerReq = none ∧
    (deliverWindowMessage jp0 cfgNone
      (requestTownPassUser jp0 cfgNone initialWorld).1 userA).msgListeners = [] ∧
    (deliverWindowMessage jp0 cfgNone
      (requestTownPassUser jp0 cfgNone initialWorld).1 userA).customListeners =
      [(0, LKind.custom)] ∧
    userIdOf (deliverCustomEvent jp0 cfgNone
      (deliverWindowMessage jp0 cfgNone
        (requestTownPassUser jp0 cfgNone initialWorld).1 userA) userB) = some "b" := by
  exact ⟨rfl, rfl, rfl, rfl, rfl⟩

/-- C6 (evaluation at the failing input): starting a second request while the
first is open leaves the first request's townpass:user listener attached, so
the two requests' custom listener sets overlap; a custom event delivered then
still flows through the superseded request's listener and sets the user. -/
theorem c6_supersede_leak_eval :
    ((requestTownPassUser jp0 cfgNone
       (requestTownPassUser jp0 cfgNone initialWorld).1).1).customListeners =
      [(0, LKind.custom), (1, LKind.custom)] ∧
    ((requestTownPassUser jp0 cfgNone
       (requestTownPassUser jp0 cfgNone initialWorld).1).1).msgListeners =
      [(1, LKind.generic)] ∧
    userIdOf (deliverCustomEvent jp0 cfgNone
      ((requestTownPassUser jp0 cfgNone
        (requestTownPassUser jp0 cfgNone initialWorld).1).1) userA) = some "a" := by
  exact ⟨rfl, rfl, rfl⟩

/-- C3 (evaluation at the failing input): with a host-installed handler in
window.__onTownPassUser before the request, the request silently overwrites
the slot with the engine handler, and teardown (here the timeout) deletes the
slot outright instead of restoring the host handler; no diagnostic of the
conflict exists anywhere in the model because none exists in the code. -/
theorem c3_slot_clobber_eval :
    ((requestTownPassUser jp0 cfgNone { initialWorld with slot := SlotVal.hostFn }).1).slot =
      SlotVal.engineFn 0 ∧
    (timeoutFire cfgNone
      (requestTownPassUser jp0 cfgNone { initialWorld with slot := SlotVal.hostFn }).1).slot =
      SlotVal.absent := by
  exact ⟨rfl, rfl⟩

/-- C7 (evaluation at the failing input): a userid command reply delivered on
townpass_message_channel — the very channel the engine probes with
name "userid" — is routed through parseIncoming, which has no userid case, so
the request stays loading with no user; the identical reply on flutterObject
resolves with the synthesized record holding exactly that id. -/
theorem c7_userid_channel_eval :
    userIdOf (deliverChannelMessage jp0 cfgChan
      (requestTownPassUser jp0 cfgChan initialWorld).1 evUserid) = none ∧
    (deliverChannelMessage jp0 cfgChan
      (requestTownPassUser jp0 cfgChan initialWorld).1 evUserid).isLoading = true ∧
    (deliverFlutterMessage jp0 cfgFlut
      (requestTownPassUser jp0 cfgFlut initialWorld).1 evUserid).user =
      some (JSVal.obj [("id", JSVal.str "u2")]) := by
  exact ⟨rfl, rfl, rfl⟩

/-- C4 counterexample: on an input matching both the event-wrapper detail
shape and the bare-identifier shape, parseIncoming disagrees with the claim's
priority order (which puts bare identifiers before detail wrappers): the code
returns the detail record with id "a", the claimed order would return the
whole object with id "b". -/
theorem c4_counterexample : parseIncoming jp0 c4Input ≠ claimNormalize jp0 c4Input := by
  intro h
  have h2 := congrArg idOf h
  rw [show idOf (parseIncoming jp0 c4Input) = some "a" from rfl,
      show idOf (claimNormalize jp0 c4Input) = some "b" from rfl] at h2
  exact absurd h2 (by decide)

/-- C4 amended: parseIncoming tries the known envelope shapes in exactly this
fixed priority order — tagged envelopes with a source/type discriminator,
nested user/townpass_user keys, the name/data command-reply shape (where data
may itself be a JSON-encoded string), event-wrapper detail payloads, and only
then bare objects carrying an identifier field — so for every input matching
more than one shape the earliest shape in this order determines the result. -/
theorem c4_amended_priority_order (jp : Decoder) (v : JSVal) :
    parseIncoming jp v = amendedNormalize jp v := rfl

/-- The setup part of the trace contributes nothing to the probe filter. -/
theorem setupTrace_filter_nil (cfg : HostConfig) :
    (setupTrace cfg).filter isProbeEvent = [] := by
  rw [List.filter_eq_nil_iff]
  intro a ha
  simp [setupTrace_no_probe cfg a ha]

/-- The probe part of the trace is fixed by the probe filter. -/
theorem probeTrace_filter_self (cfg : HostConfig) :
    (probeTrace cfg).filter isProbeEvent = probeTrace cfg := by
  rw [List.filter_eq_self]
  intro a ha
  exact probeTrace_is_probe cfg a ha

/-- C8 counterexample: on a host exposing both the synchronous accessor and
the structured bridge, the first host-observable probe of a request is the
structured-bridge probe, not the synchronous accessor call — which is
nevertheless attempted — refuting the claim that the accessor is attempted
first. -/
theorem c8_counterexample :
    ((((requestTownPassUser jp0 cfgAll initialWorld).2).filter isProbeEvent).head? =
      some (Event.probeFlutter probeFlutterMsg)) ∧
    Event.callGetUser ∈ ((requestTownPassUser jp0 cfgAll initialWorld).2).filter isProbeEvent ∧
    Event.probeFlutter probeFlutterMsg ≠ Event.callGetUser := by
  decide

/-- C8 amended: probes are sent in the fixed priority order of the source:
structured-bridge probe, secondary-channel probe, iOS webkit handler probe,
ReactNativeWebView probe, Android-style bridge probe, generic window
broadcast, and the synchronous accessor call last — in particular, whenever
the accessor is present its call is the last host-observable probe of the
request. -/
theorem c8_amended_probe_order (jp : Decoder) (cfg : HostConfig) (w : World) :
    ((requestTownPassUser jp cfg w).2).filter isProbeEvent = probeTrace cfg ∧
    (cfg.townPassPresent = true → cfg.townPassGetUser.isSome = true →
      (((requestTownPassUser jp cfg w).2).filter isProbeEvent).getLast? =
        some Event.callGetUser) := by
  have hf : ((requestTownPassUser jp cfg w).2).filter isProbeEvent = probeTrace cfg := by
    rw [requestTrace_split, List.filter_append, setupTrace_filter_nil,
        probeTrace_filter_self]
    rfl
  refine ⟨hf, fun h1 h2 => ?_⟩
  rw [hf]
  show (probeTrace cfg).getLast? = some Event.callGetUser
  simp only [probeTrace, h1, h2, Bool.and_true, Bool.true_and, and_true, if_true]
  rw [List.getLast?_concat]

/-- Witness for C8 amended at a host exposing everything: the accessor call is
last among the probes. -/
theorem c8_amended_witness :
    ((((requestTownPassUser jp0 cfgAll initialWorld).2).filter isProbeEvent).getLast?) =
      some Event.callGetUser :=
  (c8_amended_probe_order jp0 cfgAll initialWorld).2 rfl rfl

/-- Strings that survive to shape matching (undecodable or decoded to a
string) match no shape. -/
theorem matchShapes_str (jp : Decoder) (u : String) :
    matchShapes jp (JSVal.str u) = none := rfl

/-- parseIncoming on a string input: empty strings are falsy and rejected at
the gate; otherwise the single decode step feeds shape matching. -/
theorem parseIncoming_str_eq (jp : Decoder) (u : String) :
    parseIncoming jp (JSVal.str u) =
      if u = "" then none else matchShapes jp (decodeStep jp (JSVal.str u)) := by
  by_cases h : u = "" <;> simp [parseIncoming, truthy, h]

/-- C5: parseIncoming is a total function of its input (never throws, by
construction of the embedding): null, undefined, false, the empty string, a
string whose single JSON decode fails, and a string decoding to another
string all yield not-recognized rather than an error; a decodable string is
decoded exactly once and its decoded value — not the string — is shape
matched; and on a valid instance of every supported shape the full identity
record, its identifier field included, is returned exactly. -/
theorem c5_normalizer_total_preserving (jp : Decoder) (s sStr sObj t : String)
    (fields : List (String × JSVal))
    (hfail : tryParse jp s = none)
    (hstr : tryParse jp sStr = some (JSVal.str t))
    (hobj : tryParse jp sObj = some (JSVal.obj fields))
    (hne : sObj ≠ "")
    (hid : truthy (getField (JSVal.obj fields) "id") = true)
    (hsrc : isStr (getField (JSVal.obj fields) "source") "townpass" = false)
    (huser : truthy (getField (JSVal.obj fields) "user") = false)
    (htp : truthy (getField (JSVal.obj fields) "townpass_user") = false)
    (hname : isStr (getField (JSVal.obj fields) "name") "userinfo" = false)
    (hdet : truthy (getField (JSVal.obj fields) "detail") = false) :
    parseIncoming jp JSVal.null = none ∧
    parseIncoming jp JSVal.undefined = none ∧
    parseIncoming jp (JSVal.bool false) = none ∧
    parseIncoming jp (JSVal.str "") = none ∧
    parseIncoming jp (JSVal.str s) = none ∧
    parseIncoming jp (JSVal.str sStr) = none ∧
    parseIncoming jp (JSVal.str sObj) = matchShapes jp (JSVal.obj fields) ∧
    parseIncoming jp (JSVal.obj fields) = some (JSVal.obj fields) ∧
    parseIncoming jp (JSVal.obj [("townpass_user", JSVal.obj fields)]) =
      some (JSVal.obj fields) ∧
    parseIncoming jp (JSVal.obj [("user", JSVal.obj fields)]) = some (JSVal.obj fields) ∧
    parseIncoming jp (JSVal.obj [("source", JSVal.str "townpass"), ("type", JSVal.str "user"),
      ("payload", JSVal.obj fields)]) = some (JSVal.obj fields) ∧
    parseIncoming jp (JSVal.obj [("type", JSVal.str "townpass:user"),
      ("user", JSVal.obj fields)]) = some (JSVal.obj fields) ∧
    parseIncoming jp (JSVal.obj [("name", JSVal.str "userinfo"),
      ("data", JSVal.obj fields)]) = some (JSVal.obj fields) ∧
    parseIncoming jp (JSVal.obj [("name", JSVal.str "userinfo"),
      ("data", JSVal.str sObj)]) = some (JSVal.obj fields) ∧
    parseIncoming jp (JSVal.obj [("detail", JSVal.obj [("user", JSVal.obj fields)])]) =
      some (JSVal.obj fields) := by
  refine ⟨rfl, rfl, rfl, rfl, ?_, ?_, ?_, ?_, rfl, ?_, rfl, rfl, rfl, ?_, rfl⟩
  · rw [parseIncoming_str_eq]
    simp [decodeStep, hfail, matchShapes_str]
  · rw [parseIncoming_str_eq]
    simp [decodeStep, hstr, matchShapes_str]
  · rw [parseIncoming_str_eq]
    simp [decodeStep, hobj, hne]
  · rw [show parseIncoming jp (JSVal.obj fields) = matchShapes jp (JSVal.obj fields) from rfl]
    simp [matchShapes, jsTypeof, hid, hsrc, huser, htp, hname, hdet]
  · have hid2 : truthy (lookupField fields "id") = true := hid
    simp [parseIncoming, decodeStep, matchShapes, getField, lookupField, isStr,
          jsTypeof, nullish, coalesce, hid2]
    simp [truthy]
  · simp [parseIncoming, decodeStep, matchShapes, getField, lookupField, isStr, truthy,
          jsTypeof, nullish, coalesce, hobj]

/-- Witness for C5 with a concrete decoder: a failing decode yields
not-recognized, a townpass_user wrapper and a userinfo reply with
JSON-encoded string data both return the identity record with its id
preserved. -/
theorem c5_witness :
    parseIncoming jp1 (JSVal.str "x") = none ∧
    parseIncoming jp1 (JSVal.obj [("townpass_user",
      JSVal.obj [("id", JSVal.str "u1"), ("email", JSVal.str "e")])]) =
      some (JSVal.obj [("id", JSVal.str "u1"), ("email", JSVal.str "e")]) ∧
    parseIncoming jp1 (JSVal.obj [("name", JSVal.str "userinfo"), ("data", JSVal.str "D")]) =
      some (JSVal.obj [("id", JSVal.str "u1"), ("email", JSVal.str "e")]) := by
  obtain ⟨-, -, -, -, h5, -, -, -, h9, -, -, -, -, h14, -⟩ :=
    c5_normalizer_total_preserving jp1 "x" "S" "D" "inner"
      [("id", JSVal.str "u1"), ("email", JSVal.str "e")]
      rfl rfl rfl (by decide) rfl rfl rfl rfl rfl rfl
  exact ⟨h5, h9, h14⟩

/-- C9 amended: loginWithTownPass performs its single exchange as a POST to
the configured endpoint (default "/api/auth/townpass") with credentials
included and body an object carrying the identity under townpass_user; every
non-2xx response surfaces as a failure carrying the HTTP status and body text
with isAuthenticated false and no retry; a 2xx response authenticates when
its body decodes as JSON, while a 2xx response whose body fails JSON decoding
also surfaces as a failure with isAuthenticated false. -/
theorem c9_amended_exchange (endpoint : String) (u : JSVal) (resp : FetchResponse) (w : World) :
    ((loginWithTownPass endpoint u resp w).2.1.url = endpoint ∧
     (loginWithTownPass endpoint u resp w).2.1.method = "POST" ∧
     (loginWithTownPass endpoint u resp w).2.1.credentials = "include" ∧
     (loginWithTownPass endpoint u resp w).2.1.contentType = "application/json" ∧
     (loginWithTownPass endpoint u resp w).2.1.body = JSVal.obj [("townpass_user", u)] ∧
     defaultAuthEndpoint = "/api/auth/townpass") ∧
    (resOk resp = false →
      ((loginWithTownPass endpoint u resp w).1).isAuthenticated = false ∧
      ((loginWithTownPass endpoint u resp w).1).error =
        some ("Backend auth failed " ++ toString resp.status ++ " " ++ resp.bodyText) ∧
      (loginWithTownPass endpoint u resp w).2.2 =
        Except.error ("Backend auth failed " ++ toString resp.status ++ " " ++ resp.bodyText)) ∧
    (resOk resp = true → ∀ d, resp.jsonBody = some d →
      ((loginWithTownPass endpoint u resp w).1).isAuthenticated = true ∧
      (loginWithTownPass endpoint u resp w).2.2 = Except.ok d) ∧
    (resOk resp = true → resp.jsonBody = none →
      ((loginWithTownPass endpoint u resp w).1).isAuthenticated = false ∧
      ((loginWithTownPass endpoint u resp w).1).isLoading = false) := by
  by_cases hok : resOk resp <;> cases hjs : resp.jsonBody <;>
    simp [loginWithTownPass, hok, hjs, defaultAuthEndpoint]

/-- C9 counterexample: a 2xx response whose body is not valid JSON leaves
isAuthenticated false, refuting the claim that any 2xx response
authenticates. -/
theorem c9_counterexample :
    resOk resp200Bad = true ∧
    ((loginWithTownPass defaultAuthEndpoint userA resp200Bad initialWorld).1).isAuthenticated =
      false := by
  exact ⟨rfl, rfl⟩

/-- Witness for C9 at an HTTP 401 backend: the failure carries the status and
body text and isAuthenticated stays false. -/
theorem c9_witness :
    ((loginWithTownPass defaultAuthEndpoint userA resp401 initialWorld).1).isAuthenticated =
      false ∧
    ((loginWithTownPass defaultAuthEndpoint userA resp401 initialWorld).1).error =
      some "Backend auth failed 401 unauthorized" := by
  have h := (c9_amended_exchange defaultAuthEndpoint userA resp401 initialWorld).2.1 (by decide)
  exact ⟨h.1, h.2.1⟩
